import Mathlib

/-!
Shallow embedding of the showersautodetail backend routes
(`backend/routes/coupons.js`, `backend/routes/auth.js`,
`backend/routes/google-reviews.js`, and the bookings router).

JavaScript numbers are modelled as rationals (ℚ); `x.toFixed(2)` followed by
`parseFloat` is modelled as decimal rounding half-up to two places, matching
the ECMAScript `toFixed` tie rule (pick the larger candidate).  The relational
store is modelled as explicit lists of rows, and each Express handler as a
pure function from the request and database state to a response (and, where
the handler writes, the new state or an ordered write trace).
-/

namespace ShowersAutoDetail

/-- Model of `parseFloat(x.toFixed(2))`: round to two decimal places,
ties toward the larger value, as ECMAScript `toFixed` specifies. -/
def toFixed2 (q : ℚ) : ℚ := (⌊q * 100 + 1/2⌋ : ℤ) / 100

/-- A row of the `coupons` table. -/
structure Coupon where
  id : Nat
  code : String
  discount_type : String
  discount_value : ℚ
  is_active : Bool
  expires_at : Option ℚ
  max_uses : Option Nat
  used_count : Nat
  deriving Repr, DecidableEq

/-- A row of the `bookings` table (the columns this backend reads/writes). -/
structure Booking where
  id : Nat
  customer_name : String
  customer_email : String
  customer_phone : String
  vehicle_type : String
  package_id : Option Nat
  service_id : Option Nat
  booking_date : String
  booking_time : String
  address : String
  notes : String
  total_amount : ℚ
  deposit_amount : ℚ
  status : String
  payment_token : Option String
  coupon_code : Option String
  coupon_discount : Option ℚ
  deposit_paid : Bool
  deriving Repr, DecidableEq

/-- A row of the `services` table. -/
structure Service where
  id : Nat
  name : String
  sedan_price : ℚ
  suv_price : ℚ
  truck_price : ℚ
  deriving Repr, DecidableEq

/-- A row of the `packages` table; `vehicle_multipliers` is the JSON object
column, modelled as an association list. -/
structure Package where
  id : Nat
  name : String
  base_price : ℚ
  vehicle_multipliers : List (String × ℚ)
  deriving Repr, DecidableEq

/-- A row of the `addons` table. -/
structure Addon where
  id : Nat
  name : String
  sedan_price : ℚ
  suv_price : ℚ
  commercial_price : ℚ
  is_active : Bool
  deriving Repr, DecidableEq

/-- A row of the `settings` table (value already parsed by `parseFloat`). -/
structure Setting where
  key : String
  value : ℚ
  deriving Repr, DecidableEq

/-- A row of the `refresh_tokens` table, exactly the columns the login INSERT
writes plus the `is_revoked` flag (default false).  There is no column for the
raw token: only its hash is stored. -/
structure RefreshTokenRow where
  user_id : Nat
  token_hash : String
  expires_at : ℚ
  device_info : String
  is_revoked : Bool
  deriving Repr, DecidableEq

/-- A row of the `admin_users` table (the columns auth reads). -/
structure AdminUser where
  id : Nat
  email : String
  name : String
  role : String
  is_active : Bool
  deriving Repr, DecidableEq

/-- The relational store: one list of rows per table the claims touch. -/
structure Db where
  coupons : List Coupon
  bookings : List Booking
  services : List Service
  packages : List Package
  addons : List Addon
  settings : List Setting
  refresh_tokens : List RefreshTokenRow
  admin_users : List AdminUser
  deriving Repr, DecidableEq

/-- `String.toUpperCase()` for the ASCII codes this backend compares:
uppercases each character.  Defined over the character list so that it
reduces definitionally. -/
def jsToUpper (s : String) : String := String.mk (s.data.map Char.toUpper)

/-- `String.toLowerCase()`, character by character. -/
def jsToLower (s : String) : String := String.mk (s.data.map Char.toLower)

/-! ## Coupons router (`backend/routes/coupons.js`) -/

/-- The WHERE clause shared by `POST /api/coupons/validate` and
`POST /api/coupons/apply`: code equals the (already uppercased) parameter,
`is_active`, unexpired (or no expiry), and `used_count < max_uses`
(or no cap). -/
def couponMatches (now : ℚ) (codeU : String) (c : Coupon) : Bool :=
  c.code == codeU && c.is_active &&
    (match c.expires_at with
     | none => true
     | some e => decide (now < e)) &&
    (match c.max_uses with
     | none => true
     | some m => decide (c.used_count < m))

/-- The coupon SELECT of validate/apply: first row matching the uppercased
submitted code under `couponMatches`. -/
def findValidCoupon (now : ℚ) (code : String) (db : Db) : Option Coupon :=
  (db.coupons.filter (couponMatches now (jsToUpper code))).head?

/-- Discount computation shared by validate and apply:
percent coupons give `amount * discount_value / 100`, fixed coupons give
`discount_value`, and the result is capped with `Math.min` at `amount`. -/
def computeDiscount (c : Coupon) (amount : ℚ) : ℚ :=
  let raw := if c.discount_type == "percent"
    then amount * c.discount_value / 100
    else c.discount_value
  min raw amount

/-- Response of `POST /api/coupons/validate`. -/
inductive ValidateResp where
  | badRequest
  | notFound
  | ok (code : String) (discountType : String) (discountValue : ℚ)
      (discountAmount : ℚ)
  deriving Repr, DecidableEq

/-- Handler of `POST /api/coupons/validate`.  A missing code is modelled as
the empty string (the only falsy string), which returns 400; otherwise the
coupon is looked up by uppercased code and the capped discount is returned
rounded by `toFixed(2)`. -/
def validateCoupon (now : ℚ) (code : String) (subtotal : ℚ) (db : Db) :
    ValidateResp :=
  if code == "" then .badRequest
  else
    match findValidCoupon now code db with
    | none => .notFound
    | some coupon =>
      let discount := computeDiscount coupon subtotal
      .ok coupon.code coupon.discount_type coupon.discount_value
        (toFixed2 discount)

/-- The booking SELECT of apply: first row of `bookings` with the given id. -/
def findBooking (bookingId : Nat) (db : Db) : Option Booking :=
  db.bookings.find? (fun b => b.id == bookingId)

/-- One database write issued by `POST /api/coupons/apply`, in the order the
handler awaits them. -/
inductive DbWrite where
  | updateBooking (id : Nat) (couponCode : String) (discount : ℚ)
      (newTotal : ℚ) (newDeposit : ℚ)
  | incrementCouponUsed (couponId : Nat)
  deriving Repr, DecidableEq

/-- Effect of a single write on the store, mirroring the two UPDATE
statements of the apply handler. -/
def applyWrite (db : Db) (w : DbWrite) : Db :=
  match w with
  | .updateBooking id couponCode discount newTotal newDeposit =>
    { db with bookings := db.bookings.map (fun b =>
        if b.id == id then
          { b with coupon_code := some couponCode,
                   coupon_discount := some discount,
                   total_amount := newTotal,
                   deposit_amount := newDeposit }
        else b) }
  | .incrementCouponUsed couponId =>
    { db with coupons := db.coupons.map (fun c =>
        if c.id == couponId then { c with used_count := c.used_count + 1 }
        else c) }

/-- Effect of a list of writes, executed left to right. -/
def applyWrites (db : Db) (ws : List DbWrite) : Db := ws.foldl applyWrite db

/-- Response of `POST /api/coupons/apply`. -/
inductive ApplyResp where
  | badRequest
  | couponNotFound
  | bookingNotFound
  | ok (discountApplied : ℚ) (newTotal : ℚ) (newDeposit : ℚ)
  deriving Repr, DecidableEq

/-- Handler of `POST /api/coupons/apply`: returns the JSON response together
with the ordered list of writes it awaits.  A missing code is the empty
string and a missing/zero booking id is falsy (`!bookingId`), both giving
400.  On success the booking UPDATE is issued first and the coupon
`used_count` increment second, with no transaction around them. -/
def applyCoupon (now : ℚ) (code : String) (bookingId : Option Nat) (db : Db) :
    ApplyResp × List DbWrite :=
  match bookingId with
  | none => (.badRequest, [])
  | some bid =>
    if code == "" || bid == 0 then (.badRequest, [])
    else
      match findValidCoupon now code db with
      | none => (.couponNotFound, [])
      | some coupon =>
        match findBooking bid db with
        | none => (.bookingNotFound, [])
        | some booking =>
          let discount := computeDiscount coupon booking.total_amount
          let depositPercentage := booking.deposit_amount / booking.total_amount
          let newTotal := booking.total_amount - discount
          let newDeposit := newTotal * depositPercentage
          (.ok (toFixed2 discount) (toFixed2 newTotal) (toFixed2 newDeposit),
           [.updateBooking bid coupon.code discount newTotal newDeposit,
            .incrementCouponUsed coupon.id])

/-- Response of `POST /api/coupons` (create). -/
inductive CreateCouponResp where
  | badRequest (msg : String)
  | created (row : Coupon)
  deriving Repr, DecidableEq

/-- Handler of `POST /api/coupons`: required-field truthiness checks
(`!code`, `!discountType`, `!discountValue` — so a 0 value is rejected as
missing), discount-type membership, percent bounds, then INSERT of the
uppercased code.  The unique constraint on `code` (error 23505 → 400) is
modelled by checking for an existing row with the same stored code.
`used_count` starts at 0 and `is_active` defaults to true. -/
def createCoupon (code : String) (discountType : String) (discountValue : ℚ)
    (maxUses : Option Nat) (expiresAt : Option ℚ) (newId : Nat) (db : Db) :
    CreateCouponResp × Db :=
  if code == "" || discountType == "" || discountValue == 0 then
    (.badRequest "Code, discount type, and value required", db)
  else if !(discountType == "percent" || discountType == "fixed") then
    (.badRequest "Discount type must be percent or fixed", db)
  else if discountType == "percent" &&
      (discountValue < 0 || discountValue > 100) then
    (.badRequest "Percent discount must be between 0 and 100", db)
  else if db.coupons.any (fun c => c.code == jsToUpper code) then
    (.badRequest "Coupon code already exists", db)
  else
    let row : Coupon :=
      { id := newId, code := jsToUpper code, discount_type := discountType,
        discount_value := discountValue, is_active := true,
        expires_at := expiresAt,
        max_uses := match maxUses with | some 0 => none | x => x,
        used_count := 0 }
    (.created row, { db with coupons := db.coupons ++ [row] })

/-! ## Bookings router (the unnamed route file) -/

/-- Lowercase hex digit for a value below 16. -/
def hexDigit (n : Nat) : Char :=
  if n < 10 then Char.ofNat (48 + n) else Char.ofNat (87 + n)

/-- `Buffer.toString('hex')`: two lowercase hex digits per byte. -/
def bytesToHex (bytes : List Nat) : String :=
  String.mk (bytes.foldr (fun b acc =>
    hexDigit (b / 16 % 16) :: hexDigit (b % 16) :: acc) [])

/-- `generatePaymentToken`: `crypto.randomBytes(6).toString('hex')`, the six
random bytes taken as input. -/
def generatePaymentToken (randomBytes : List Nat) : String :=
  bytesToHex randomBytes

/-- Service price by vehicle type: sedan and suv use their columns, anything
else (commercial included) uses `truck_price`. -/
def servicePrice (s : Service) (vehicleType : String) : ℚ :=
  let v := jsToLower vehicleType
  if v == "sedan" then s.sedan_price
  else if v == "suv" then s.suv_price
  else s.truck_price

/-- `vehicle_multipliers[vehicleType.toLowerCase()] || 1.0`: a missing key is
`undefined` (falsy) and a stored 0 is falsy too, so both fall back to 1. -/
def packageMultiplier (p : Package) (vehicleType : String) : ℚ :=
  match p.vehicle_multipliers.lookup (jsToLower vehicleType) with
  | none => 1
  | some m => if m == 0 then 1 else m

/-- The addon price column chosen by vehicle type. -/
def addonPrice (a : Addon) (vehicleType : String) : ℚ :=
  let v := jsToLower vehicleType
  if v == "commercial" then a.commercial_price
  else if v == "suv" then a.suv_price
  else a.sedan_price

/-- The addon SELECT plus summation loop: active addons whose id is in the
submitted list, summed over the vehicle-specific price column.  A missing or
empty list contributes 0. -/
def addonTotal (addonIds : Option (List Nat)) (vehicleType : String)
    (db : Db) : ℚ :=
  match addonIds with
  | none => 0
  | some ids =>
    ((db.addons.filter (fun a => ids.contains a.id && a.is_active)).map
      (fun a => addonPrice a vehicleType)).sum

/-- Deposit percentage: the `settings` row with key `deposit_percentage` if
present, else `parseFloat(process.env.DEPOSIT_PERCENTAGE || 0.25)` with the
environment value modelled as an optional parsed rational. -/
def depositPct (db : Db) (envDepositPercentage : Option ℚ) : ℚ :=
  match (db.settings.find? (fun s => s.key == "deposit_percentage")) with
  | some s => s.value
  | none => envDepositPercentage.getD (1/4)

/-- JS truthiness of an optional numeric id: `undefined` and 0 are falsy. -/
def truthyId (o : Option Nat) : Option Nat :=
  match o with
  | some 0 => none
  | x => x

/-- Request body of `POST /api/bookings`. -/
structure BookingReq where
  customerName : String
  customerEmail : String
  customerPhone : String
  vehicleType : String
  packageId : Option Nat
  serviceId : Option Nat
  addonIds : Option (List Nat)
  bookingDate : String
  bookingTime : String
  address : String
  notes : String
  deriving Repr, DecidableEq

/-- Error responses of `POST /api/bookings`. -/
inductive CreateBookingErr where
  | serviceNotFound
  | packageNotFound
  | missingServiceOrPackage
  deriving Repr, DecidableEq

/-- The pricing block of `POST /api/bookings`: a (truthy) service id is
priced from the `services` row by vehicle column (404 when absent);
otherwise a (truthy) package id is priced as `base_price` times the vehicle
multiplier (404 when absent); otherwise 400. -/
def basePriceLookup (req : BookingReq) (db : Db) :
    Except CreateBookingErr ℚ :=
  match truthyId req.serviceId with
  | some sid =>
    match db.services.find? (fun s => s.id == sid) with
    | none => .error .serviceNotFound
    | some svc => .ok (servicePrice svc req.vehicleType)
  | none =>
    match truthyId req.packageId with
    | some pid =>
      match db.packages.find? (fun p => p.id == pid) with
      | none => .error .packageNotFound
      | some pkg => .ok (pkg.base_price * packageMultiplier pkg req.vehicleType)
    | none => .error .missingServiceOrPackage

/-- Handler of `POST /api/bookings` (success value is the inserted row and
the new store): base price from `basePriceLookup`; addons summed on top;
deposit as `total * depositPct`; a fresh payment token from the six random
bytes; one INSERT with status `pending`. -/
def createBooking (req : BookingReq) (db : Db)
    (envDepositPercentage : Option ℚ) (randomBytes : List Nat) (newId : Nat) :
    Except CreateBookingErr (Booking × Db) :=
  match basePriceLookup req db with
  | .error e => .error e
  | .ok base =>
  let totalAmount := base + addonTotal req.addonIds req.vehicleType db
  let depositAmount := totalAmount * depositPct db envDepositPercentage
  let paymentToken := generatePaymentToken randomBytes
  let booking : Booking :=
    { id := newId,
      customer_name := req.customerName,
      customer_email := req.customerEmail,
      customer_phone := req.customerPhone,
      vehicle_type := req.vehicleType,
      package_id := truthyId req.packageId,
      service_id := truthyId req.serviceId,
      booking_date := req.bookingDate,
      booking_time := req.bookingTime,
      address := req.address,
      notes := req.notes,
      total_amount := totalAmount,
      deposit_amount := depositAmount,
      status := "pending",
      payment_token := some paymentToken,
      coupon_code := none,
      coupon_discount := none,
      deposit_paid := false }
  .ok (booking, { db with bookings := db.bookings ++ [booking] })

/-- The status whitelist of the PATCH and PUT booking handlers. -/
def validStatuses : List String :=
  ["pending", "confirmed", "in_progress", "completed", "cancelled"]

/-- Response of the status/details update handlers. -/
inductive UpdateResp where
  | badRequest (msg : String)
  | notFound
  | ok (row : Booking)
  deriving Repr, DecidableEq

/-- Handler of `PATCH /api/bookings/:id/status`: whitelist check first
(400, no write), then UPDATE returning 404 when no row matches. -/
def updateBookingStatus (id : Nat) (status : String) (db : Db) :
    UpdateResp × Db :=
  if !validStatuses.contains status then
    (.badRequest "Invalid status", db)
  else
    match findBooking id db with
    | none => (.notFound, db)
    | some b =>
      let updated := { b with status := status }
      (.ok updated,
       { db with bookings := db.bookings.map (fun x =>
           if x.id == id then updated else x) })

/-- Request body of `PUT /api/bookings/:id`: every field optional
(`undefined` means absent). -/
structure PutBookingReq where
  customerName : Option String
  customerEmail : Option String
  customerPhone : Option String
  vehicleType : Option String
  bookingDate : Option String
  bookingTime : Option String
  address : Option String
  notes : Option String
  totalAmount : Option ℚ
  depositAmount : Option ℚ
  status : Option String
  deriving Repr, DecidableEq

/-- Whether the PUT request carries at least one updatable field. -/
def putHasField (r : PutBookingReq) : Bool :=
  r.customerName.isSome || r.customerEmail.isSome || r.customerPhone.isSome ||
  r.vehicleType.isSome || r.bookingDate.isSome || r.bookingTime.isSome ||
  r.address.isSome || r.notes.isSome || r.totalAmount.isSome ||
  r.depositAmount.isSome || r.status.isSome

/-- Applies the supplied PUT fields to a booking row, as the dynamic UPDATE
does. -/
def putApplyFields (r : PutBookingReq) (b : Booking) : Booking :=
  { b with
    customer_name := r.customerName.getD b.customer_name,
    customer_email := r.customerEmail.getD b.customer_email,
    customer_phone := r.customerPhone.getD b.customer_phone,
    vehicle_type := r.vehicleType.getD b.vehicle_type,
    booking_date := r.bookingDate.getD b.booking_date,
    booking_time := r.bookingTime.getD b.booking_time,
    address := r.address.getD b.address,
    notes := r.notes.getD b.notes,
    total_amount := r.totalAmount.getD b.total_amount,
    deposit_amount := r.depositAmount.getD b.deposit_amount,
    status := r.status.getD b.status }

/-- The UPDATE query of `PUT /api/bookings/:id`: 404 when no row matches,
otherwise the present fields are applied to the row. -/
def putBookingUpdate (id : Nat) (r : PutBookingReq) (db : Db) :
    UpdateResp × Db :=
  match findBooking id db with
  | none => (.notFound, db)
  | some b =>
    let updated := putApplyFields r b
    (.ok updated,
     { db with bookings := db.bookings.map (fun x =>
         if x.id == id then updated else x) })

/-- Handler of `PUT /api/bookings/:id`: collecting fields performs no write,
and an invalid supplied status returns 400 before the UPDATE query; an empty
field list is 400; otherwise the present fields are applied via the UPDATE. -/
def putBooking (id : Nat) (r : PutBookingReq) (db : Db) : UpdateResp × Db :=
  match r.status with
  | some s =>
    if !validStatuses.contains s then (.badRequest "Invalid status", db)
    else putBookingUpdate id r db
  | none =>
    if !putHasField r then (.badRequest "No fields to update", db)
    else putBookingUpdate id r db

/-! ## Auth router (`backend/routes/auth.js`)

`crypto.createHash('sha256')` is modelled as an arbitrary hash function
`H : String → String` passed to each definition; every property proved below
holds for every such function, so in particular for SHA-256. -/

/-- The refresh-token INSERT of `POST /api/auth/login` (lines 74-82): the raw
64-byte token is returned to the client while only `H token` is stored, with
expiry 30 days out under `rememberMe` and 1 day otherwise (milliseconds). -/
def loginStoreRefreshToken (H : String → String) (userId : Nat)
    (token : String) (rememberMe : Bool) (nowMs : ℚ) (userAgent : String)
    (db : Db) : RefreshTokenRow × Db :=
  let expiryDays : ℚ := if rememberMe then 30 else 1
  let row : RefreshTokenRow :=
    { user_id := userId,
      token_hash := H token,
      expires_at := nowMs + expiryDays * 24 * 60 * 60 * 1000,
      device_info := userAgent,
      is_revoked := false }
  (row, { db with refresh_tokens := db.refresh_tokens ++ [row] })

/-- The WHERE/JOIN condition of `POST /api/auth/refresh`: hash matches, not
revoked, not expired, and the joined admin user is active. -/
def refreshRowMatches (H : String → String) (token : String) (now : ℚ)
    (db : Db) (r : RefreshTokenRow) : Bool :=
  r.token_hash == H token && !r.is_revoked && decide (now < r.expires_at) &&
    db.admin_users.any (fun u => u.id == r.user_id && u.is_active)

/-- Response of `POST /api/auth/refresh`, by HTTP status. -/
inductive RefreshResp where
  | badRequest
  | unauthorized
  | ok (userId : Nat)
  deriving Repr, DecidableEq

/-- Handler of `POST /api/auth/refresh`: `!refreshToken` is 400, so both a
missing token and the falsy empty string short-circuit before the query;
otherwise 401 when no stored row matches the hash of the presented token
under the join condition, else a new access token for the row's user. -/
def refreshHandler (H : String → String) (refreshToken : Option String)
    (now : ℚ) (db : Db) : RefreshResp :=
  match refreshToken with
  | none => .badRequest
  | some t =>
    if t == "" then .badRequest
    else
      match (db.refresh_tokens.filter
          (refreshRowMatches H t now db)).head? with
      | none => .unauthorized
      | some row => .ok row.user_id

/-- Handler of `POST /api/auth/logout`: `if (refreshToken)` guards the
UPDATE, so a missing token and the falsy empty string are both no-ops;
otherwise it sets `is_revoked` on every row whose stored hash equals the
hash of the presented token.  Always replies success. -/
def logoutHandler (H : String → String) (refreshToken : Option String)
    (db : Db) : Db :=
  match refreshToken with
  | none => db
  | some t =>
    if t == "" then db
    else
      { db with refresh_tokens := db.refresh_tokens.map (fun r =>
          if r.token_hash == H t then { r with is_revoked := true } else r) }

/-! ## Google reviews router (`backend/routes/google-reviews.js`) -/

/-- A review object of the Google Places response (optional fields as the
code reads them). -/
structure GReview where
  authorName : Option String
  authorPhotoUri : Option String
  rating : Option Nat
  textText : Option String
  originalTextText : Option String
  relativePublishTime : Option String
  publishTime : Option String
  googleMapsUri : Option String
  deriving Repr, DecidableEq

/-- The Google Places response body the code reads. -/
structure GData where
  rating : Option ℚ
  userRatingCount : Option Nat
  displayNameText : Option String
  reviews : Option (List GReview)
  deriving Repr, DecidableEq

/-- A transformed review, as built by `transformReviews`. -/
structure TReview where
  author_name : String
  author_photo_url : Option String
  rating : Nat
  text : String
  relative_time : String
  publish_time : Option String
  google_maps_uri : Option String
  deriving Repr, DecidableEq

/-- The transformed payload `transformReviews` returns (and the JSON blob the
cache stores). -/
structure Transformed where
  overall_rating : Option ℚ
  total_reviews : Nat
  business_name : String
  reviews : List TReview
  deriving Repr, DecidableEq

/-- JS `a || b` on an optional string: `undefined` and `""` are falsy. -/
def orElseStr (o : Option String) (d : String) : String :=
  match o with
  | none => d
  | some s => if s == "" then d else s

/-- JS `a || b` on an optional number: `undefined` and 0 are falsy. -/
def orElseNat (o : Option Nat) (d : Nat) : Nat :=
  match o with
  | none => d
  | some n => if n == 0 then d else n

/-- `review.rating || 5` etc. for a rational column: 0 is falsy. -/
def ratingOrNull (o : Option ℚ) : Option ℚ :=
  match o with
  | none => none
  | some q => if q == 0 then none else some q

/-- `transformReviews`: maps each Google review to the stored shape with
falsy-default fields, and wraps the overall fields. -/
def transformReviews (g : GData) : Transformed :=
  { overall_rating := ratingOrNull g.rating,
    total_reviews := orElseNat g.userRatingCount 0,
    business_name := orElseStr g.displayNameText "",
    reviews := (g.reviews.getD []).map (fun r =>
      { author_name := orElseStr r.authorName "Anonymous",
        author_photo_url := r.authorPhotoUri,
        rating := orElseNat r.rating 5,
        text := orElseStr r.textText (orElseStr r.originalTextText ""),
        relative_time := orElseStr r.relativePublishTime "",
        publish_time := r.publishTime,
        google_maps_uri := r.googleMapsUri }) }

/-- A row of the `google_reviews_cache` table. -/
structure CacheRow where
  place_id : String
  overall_rating : Option ℚ
  total_reviews : Nat
  reviews_data : Transformed
  cached_at : ℚ
  deriving Repr, DecidableEq

/-- The JSON payload `getCachedOrFetch` produces. -/
structure ReviewsPayload where
  overall_rating : Option ℚ
  total_reviews : Nat
  business_name : String
  reviews : List TReview
  cached : Bool
  cached_at : ℚ
  deriving Repr, DecidableEq

/-- The fresh-cache SELECT: first row for the place with
`cached_at > NOW() - INTERVAL CACHE_HOURS hours`. -/
def findFreshCache (cacheHours : ℚ) (now : ℚ) (placeId : String)
    (rows : List CacheRow) : Option CacheRow :=
  (rows.filter (fun r =>
    r.place_id == placeId && decide (now - cacheHours < r.cached_at))).head?

/-- The unconditioned stale-cache SELECT of the catch block. -/
def findAnyCache (placeId : String) (rows : List CacheRow) : Option CacheRow :=
  (rows.filter (fun r => r.place_id == placeId)).head?

/-- The ON CONFLICT upsert of the cache row. -/
def upsertCache (row : CacheRow) (rows : List CacheRow) : List CacheRow :=
  if rows.any (fun r => r.place_id == row.place_id) then
    rows.map (fun r => if r.place_id == row.place_id then row else r)
  else rows ++ [row]

/-- What `getCachedOrFetch` did: its thrown-or-returned value, the cache
table afterwards, and whether the upstream Google API was called. -/
structure FetchEval where
  result : Except Unit ReviewsPayload
  rowsAfter : List CacheRow
  fetchCalled : Bool
  deriving Repr

/-- `getCachedOrFetch`: unless forced, a fresh cache row is returned as-is
with `cached = true` and no upstream call; otherwise the Google API is
fetched (its outcome supplied as `fetchOutcome`), the transformed payload
upserted with `cached_at = now`, and returned with `cached = false`.  A
throwing fresh-path cache query (`cacheQueryOk = false`) and a throwing
fetch both propagate as errors. -/
def getCachedOrFetch (cacheHours : ℚ) (forceRefresh : Bool) (now : ℚ)
    (placeId : String) (cacheQueryOk : Bool)
    (fetchOutcome : Except Unit GData) (rows : List CacheRow) : FetchEval :=
  if !forceRefresh && !cacheQueryOk then
    { result := .error (), rowsAfter := rows, fetchCalled := false }
  else
    match if forceRefresh then none else findFreshCache cacheHours now placeId rows with
    | some cached =>
      { result := .ok
          { overall_rating := cached.overall_rating,
            total_reviews := cached.total_reviews,
            business_name := cached.reviews_data.business_name,
            reviews := cached.reviews_data.reviews,
            cached := true,
            cached_at := cached.cached_at },
        rowsAfter := rows,
        fetchCalled := false }
    | none =>
      match fetchOutcome with
      | .error e => { result := .error e, rowsAfter := rows, fetchCalled := true }
      | .ok g =>
        let t := transformReviews g
        let newRow : CacheRow :=
          { place_id := placeId,
            overall_rating := t.overall_rating,
            total_reviews := t.total_reviews,
            reviews_data := t,
            cached_at := now }
        { result := .ok
            { overall_rating := t.overall_rating,
              total_reviews := t.total_reviews,
              business_name := t.business_name,
              reviews := t.reviews,
              cached := false,
              cached_at := now },
          rowsAfter := upsertCache newRow rows,
          fetchCalled := true }

/-- Response of `GET /api/google-reviews`. -/
inductive ReviewsResp where
  | disabled
  | ok (payload : ReviewsPayload) (stale : Bool)
  | serverError
  deriving Repr, DecidableEq

/-- Handler of `GET /api/google-reviews`: configured-check, then
`getCachedOrFetch(false)`; on a throw the catch block returns the stale
cache row (marked `stale = true`) when one exists and 500 otherwise. -/
def googleReviewsHandler (configured : Bool) (cacheHours : ℚ) (now : ℚ)
    (placeId : String) (cacheQueryOk : Bool)
    (fetchOutcome : Except Unit GData) (rows : List CacheRow) :
    ReviewsResp × List CacheRow × Bool :=
  if !configured then (.disabled, rows, false)
  else
    let ev := getCachedOrFetch cacheHours false now placeId cacheQueryOk
      fetchOutcome rows
    match ev.result with
    | .ok payload => (.ok payload false, ev.rowsAfter, ev.fetchCalled)
    | .error _ =>
      match findAnyCache placeId ev.rowsAfter with
      | some cached =>
        (.ok { overall_rating := cached.overall_rating,
               total_reviews := cached.total_reviews,
               business_name := cached.reviews_data.business_name,
               reviews := cached.reviews_data.reviews,
               cached := true,
               cached_at := cached.cached_at } true,
         ev.rowsAfter, ev.fetchCalled)
      | none => (.serverError, ev.rowsAfter, ev.fetchCalled)

/-! ## Concrete fixtures used by witnesses and counterexamples -/

/-- An always-valid fixed coupon of 10. -/
def couponSave : Coupon :=
  { id := 1, code := "SAVE", discount_type := "fixed", discount_value := 10,
    is_active := true, expires_at := none, max_uses := none, used_count := 0 }

/-- An always-valid fixed coupon of 100 (a full discount for the fixture
booking). -/
def couponFull : Coupon :=
  { id := 2, code := "FULL", discount_type := "fixed", discount_value := 100,
    is_active := true, expires_at := none, max_uses := none, used_count := 0 }

/-- A booking of total 100 with a 25 deposit. -/
def bookingA : Booking :=
  { id := 1, customer_name := "A B", customer_email := "a@b.c",
    customer_phone := "555", vehicle_type := "sedan", package_id := none,
    service_id := some 1, booking_date := "2026-01-01",
    booking_time := "10:00", address := "addr", notes := "",
    total_amount := 100, deposit_amount := 25, status := "pending",
    payment_token := some "aabbccddeeff", coupon_code := none,
    coupon_discount := none, deposit_paid := false }

/-- Store with the two coupons and the fixture booking. -/
def exDb : Db :=
  { coupons := [couponSave, couponFull], bookings := [bookingA],
    services := [], packages := [], addons := [], settings := [],
    refresh_tokens := [], admin_users := [] }

/-- An active fixed coupon that expired at time 10. -/
def couponExpired : Coupon :=
  { id := 3, code := "EXP", discount_type := "fixed", discount_value := 5,
    is_active := true, expires_at := some 10, max_uses := none,
    used_count := 0 }

/-- Store holding only the expired coupon. -/
def dbExpired : Db :=
  { coupons := [couponExpired], bookings := [], services := [],
    packages := [], addons := [], settings := [], refresh_tokens := [],
    admin_users := [] }

/-- A PUT request carrying only an invalid status. -/
def putReqBogus : PutBookingReq :=
  { customerName := none, customerEmail := none, customerPhone := none,
    vehicleType := none, bookingDate := none, bookingTime := none,
    address := none, notes := none, totalAmount := none,
    depositAmount := none, status := some "bogus" }

/-- Decides membership in the lowercase hex alphabet emitted by
`Buffer.toString('hex')`. -/
def isHexChar (c : Char) : Bool := "0123456789abcdef".data.contains c

/-- A fixture service priced 80/110/150 by vehicle. -/
def serviceBasic : Service :=
  { id := 1, name := "Basic Wash", sedan_price := 80, suv_price := 110,
    truck_price := 150 }

/-- A fixture active addon. -/
def addonWax : Addon :=
  { id := 1, name := "Wax", sedan_price := 20, suv_price := 25,
    commercial_price := 30, is_active := true }

/-- Store for the booking-creation witness: one service, one addon, a
deposit percentage setting of 0.3. -/
def dbBookings : Db :=
  { coupons := [], bookings := [], services := [serviceBasic],
    packages := [], addons := [addonWax],
    settings := [{ key := "deposit_percentage", value := 3/10 }],
    refresh_tokens := [], admin_users := [] }

/-- Booking request for the witness: an SUV on service 1 with addon 1. -/
def reqSuv : BookingReq :=
  { customerName := "A B", customerEmail := "a@b.c", customerPhone := "555",
    vehicleType := "SUV", packageId := none, serviceId := some 1,
    addonIds := some [1], bookingDate := "2026-01-02",
    bookingTime := "09:00", address := "addr", notes := "" }

/-- The row the witness request inserts: total 110 + 25, deposit 135 * 0.3,
token the hex of the six bytes. -/
def bkSuv : Booking :=
  { id := 9, customer_name := "A B", customer_email := "a@b.c",
    customer_phone := "555", vehicle_type := "SUV", package_id := none,
    service_id := some 1, booking_date := "2026-01-02",
    booking_time := "09:00", address := "addr", notes := "",
    total_amount := 135, deposit_amount := 81/2, status := "pending",
    payment_token := some "00ff1001abcd", coupon_code := none,
    coupon_discount := none, deposit_paid := false }

/-- The hash function used by the auth witness. -/
def hashW (s : String) : String := String.append "h:" s

/-- A stored, unrevoked refresh-token row for user 7 expiring at 100. -/
def rowAuth : RefreshTokenRow :=
  { user_id := 7, token_hash := hashW "tok", expires_at := 100,
    device_info := "ua", is_revoked := false }

/-- The active admin user the witness row belongs to. -/
def userAuth : AdminUser :=
  { id := 7, email := "a@b.c", name := "Admin", role := "admin",
    is_active := true }

/-- Store for the auth witness. -/
def dbAuth : Db :=
  { coupons := [], bookings := [], services := [], packages := [],
    addons := [], settings := [], refresh_tokens := [rowAuth],
    admin_users := [userAuth] }

/-- The transformed payload stored in the witness cache row. -/
def cachedDataW : Transformed :=
  { overall_rating := some (9/2), total_reviews := 12,
    business_name := "Biz", reviews := [] }

/-- The witness cache row for place "p", cached at time 90. -/
def rowCacheW : CacheRow :=
  { place_id := "p", overall_rating := some (9/2), total_reviews := 12,
    reviews_data := cachedDataW, cached_at := 90 }

/-! ## Helper lemmas -/

/-- The shared discount computation never exceeds the amount it is capped
at, before any rounding. -/
theorem computeDiscount_le_amount (c : Coupon) (amount : ℚ) :
    computeDiscount c amount ≤ amount :=
  min_le_right _ _

/-- `toFixed2` is monotone. -/
theorem toFixed2_mono {a b : ℚ} (h : a ≤ b) : toFixed2 a ≤ toFixed2 b := by
  unfold toFixed2
  have hf : (⌊a * 100 + 1/2⌋ : ℤ) ≤ ⌊b * 100 + 1/2⌋ := by
    apply Int.floor_le_floor
    linarith
  have h2 : ((⌊a * 100 + 1/2⌋ : ℤ) : ℚ) ≤ ((⌊b * 100 + 1/2⌋ : ℤ) : ℚ) := by
    exact_mod_cast hf
  linarith

/-- Rounding half-up to cents adds at most half a cent. -/
theorem toFixed2_le_add_half_cent (b : ℚ) : toFixed2 b ≤ b + 1/200 := by
  unfold toFixed2
  have h2 : ((⌊b * 100 + 1/2⌋ : ℤ) : ℚ) ≤ b * 100 + 1/2 := Int.floor_le _
  linarith

/-- Success characterization of the validate handler. -/
theorem validateCoupon_ok {now : ℚ} {code : String} {subtotal : ℚ} {db : Db}
    {c dt : String} {dv da : ℚ}
    (h : validateCoupon now code subtotal db = .ok c dt dv da) :
    ∃ coupon, (code == "") = false ∧
      findValidCoupon now code db = some coupon ∧
      c = coupon.code ∧ dt = coupon.discount_type ∧
      dv = coupon.discount_value ∧
      da = toFixed2 (computeDiscount coupon subtotal) := by
  unfold validateCoupon at h
  split at h
  · exact absurd h (by simp)
  · rename_i hne
    split at h
    · exact absurd h (by simp)
    · rename_i coupon heq
      refine ⟨coupon, by simpa using hne, heq, ?_⟩
      cases h
      exact ⟨rfl, rfl, rfl, rfl⟩

/-- Success characterization of the apply handler: the lookups that
succeeded, the response values, and the exact ordered write list. -/
theorem applyCoupon_ok {now : ℚ} {code : String} {bookingId : Option Nat}
    {db : Db} {d t dep : ℚ} {ws : List DbWrite}
    (h : applyCoupon now code bookingId db = (.ok d t dep, ws)) :
    ∃ bid coupon booking,
      bookingId = some bid ∧
      findValidCoupon now code db = some coupon ∧
      findBooking bid db = some booking ∧
      d = toFixed2 (computeDiscount coupon booking.total_amount) ∧
      t = toFixed2 (booking.total_amount - computeDiscount coupon booking.total_amount) ∧
      dep = toFixed2 ((booking.total_amount - computeDiscount coupon booking.total_amount) *
        (booking.deposit_amount / booking.total_amount)) ∧
      ws = [DbWrite.updateBooking bid coupon.code
              (computeDiscount coupon booking.total_amount)
              (booking.total_amount - computeDiscount coupon booking.total_amount)
              ((booking.total_amount - computeDiscount coupon booking.total_amount) *
                (booking.deposit_amount / booking.total_amount)),
            DbWrite.incrementCouponUsed coupon.id] := by
  unfold applyCoupon at h
  match hb : bookingId with
  | none => simp at h
  | some bid =>
    dsimp only at h
    split at h
    · exact absurd h (by simp)
    · split at h
      · exact absurd h (by simp)
      · rename_i coupon hcoupon
        split at h
        · exact absurd h (by simp)
        · rename_i booking hbooking
          refine ⟨bid, coupon, booking, rfl, hcoupon, hbooking, ?_⟩
          simp only [Prod.mk.injEq, ApplyResp.ok.injEq] at h
          obtain ⟨⟨hd, ht, hdep⟩, hws⟩ := h
          exact ⟨hd.symm, ht.symm, hdep.symm, hws.symm⟩

/-! ## Concrete fixtures used by witnesses and counterexamples -/

/-! ## Claim C1 -/

/-- C1 (amended): for every successful validate, the discount is capped at
the subtotal before rounding, and the returned `discountAmount` is that
capped value rounded half-up to cents, so it never exceeds the subtotal
rounded half-up to cents and never exceeds the subtotal by more than half a
cent (it can exceed a sub-cent subtotal, see the counterexample); for every
successful apply, the discount subtracted never exceeds the booking's
`total_amount`. -/
theorem coupon_discount_cap (now : ℚ) (code : String) (subtotal : ℚ)
    (bookingId : Option Nat) (db : Db) :
    (∀ c dt dv da, validateCoupon now code subtotal db = .ok c dt dv da →
      ∃ coupon, findValidCoupon now code db = some coupon ∧
        da = toFixed2 (computeDiscount coupon subtotal) ∧
        computeDiscount coupon subtotal ≤ subtotal ∧
        da ≤ toFixed2 subtotal ∧ da ≤ subtotal + 1/200) ∧
    (∀ d t dep ws, applyCoupon now code bookingId db = (.ok d t dep, ws) →
      ∀ bid cc disc nt nd, DbWrite.updateBooking bid cc disc nt nd ∈ ws →
        ∃ booking, findBooking bid db = some booking ∧
          disc ≤ booking.total_amount ∧
          nt = booking.total_amount - disc) := by
  constructor
  · intro c dt dv da h
    obtain ⟨coupon, _, hfind, _, _, _, hda⟩ := validateCoupon_ok h
    refine ⟨coupon, hfind, hda, computeDiscount_le_amount _ _, ?_, ?_⟩
    · rw [hda]
      exact toFixed2_mono (computeDiscount_le_amount _ _)
    · rw [hda]
      calc toFixed2 (computeDiscount coupon subtotal)
          ≤ toFixed2 subtotal := toFixed2_mono (computeDiscount_le_amount _ _)
        _ ≤ subtotal + 1/200 := toFixed2_le_add_half_cent _
  · intro d t dep ws h bid cc disc nt nd hw
    obtain ⟨bid2, coupon, booking, hbid2, hc2, hb2, _, _, _, hws⟩ :=
      applyCoupon_ok h
    subst hws
    simp only [List.mem_cons, List.mem_singleton] at hw
    rcases hw with hw | hw | hw
    · obtain ⟨h1, _, h3, h4, _⟩ := DbWrite.updateBooking.injEq .. |>.mp hw.symm
      subst h1
      refine ⟨booking, hb2, h3 ▸ computeDiscount_le_amount _ _, ?_⟩
      rw [← h4, h3]
    · exact absurd hw (by simp)
    · exact absurd hw (by simp)

/-- C1 (counterexample to the claim as stated): with an always-valid fixed
coupon of 10 and a submitted subtotal of 0.005, validate succeeds and
returns `discountAmount = 0.01`, which exceeds the supplied subtotal
(in JS, `Math.min(10, 0.005).toFixed(2)` is `"0.01"`). -/
theorem coupon_discount_cap_counterexample :
    validateCoupon 0 "SAVE" (1/200) exDb = .ok "SAVE" "fixed" 10 (1/100) ∧
    ¬ ((1:ℚ)/100 ≤ 1/200) := by
  constructor
  · have h1 : findValidCoupon 0 "SAVE" exDb = some couponSave := rfl
    simp only [validateCoupon, h1, computeDiscount, couponSave]
    norm_num [toFixed2, min_def, show ¬("SAVE" = "") from by decide,
      show ¬("fixed" = "percent") from by decide]
  · norm_num

/-- C1 witness: the amended theorem applied to a coupon of 10 against a
subtotal of 50 (validate) and the fixture booking of total 100 (apply). -/
theorem coupon_discount_cap_witness :
    (∃ coupon, findValidCoupon 0 "SAVE" exDb = some coupon ∧
      (10:ℚ) = toFixed2 (computeDiscount coupon 50) ∧
      computeDiscount coupon 50 ≤ 50 ∧
      (10:ℚ) ≤ toFixed2 50 ∧ (10:ℚ) ≤ 50 + 1/200) ∧
    (∃ booking, findBooking 1 exDb = some booking ∧
      (10:ℚ) ≤ booking.total_amount ∧
      (90:ℚ) = booking.total_amount - 10) := by
  constructor
  · refine (coupon_discount_cap 0 "SAVE" 50 (some 1) exDb).1 "SAVE" "fixed" 10 10 ?_
    have h1 : findValidCoupon 0 "SAVE" exDb = some couponSave := rfl
    simp only [validateCoupon, h1, computeDiscount, couponSave]
    norm_num [toFixed2, min_def, show ¬("SAVE" = "") from by decide,
      show ¬("fixed" = "percent") from by decide]
  · refine (coupon_discount_cap 0 "SAVE" 50 (some 1) exDb).2 10 90 (45/2)
      [DbWrite.updateBooking 1 "SAVE" 10 90 (45/2),
       DbWrite.incrementCouponUsed 1] ?_ 1 "SAVE" 10 90 (45/2) (by simp)
    have h1 : findValidCoupon 0 "SAVE" exDb = some couponSave := rfl
    have h2 : findBooking 1 exDb = some bookingA := rfl
    simp only [applyCoupon, h1, h2, computeDiscount, couponSave, bookingA]
    norm_num [toFixed2, min_def, show ¬("SAVE" = "") from by decide,
      show ¬("fixed" = "percent") from by decide]

/-! ## Claim C3 -/

/-- C3: every successful apply issues exactly two writes, in order: first
the booking UPDATE (coupon code, capped discount, reduced total, recomputed
deposit), then the coupon `used_count` increment by exactly one.  Applying
only the first write (execution stopping between them) leaves every coupon
row unchanged while the booking is already updated. -/
theorem apply_coupon_two_writes (now : ℚ) (code : String)
    (bookingId : Option Nat) (db : Db) (d t dep : ℚ) (ws : List DbWrite)
    (h : applyCoupon now code bookingId db = (.ok d t dep, ws)) :
    ∃ bid coupon booking,
      bookingId = some bid ∧
      findValidCoupon now code db = some coupon ∧
      findBooking bid db = some booking ∧
      ws = [DbWrite.updateBooking bid coupon.code
              (computeDiscount coupon booking.total_amount)
              (booking.total_amount - computeDiscount coupon booking.total_amount)
              ((booking.total_amount - computeDiscount coupon booking.total_amount) *
                (booking.deposit_amount / booking.total_amount)),
            DbWrite.incrementCouponUsed coupon.id] ∧
      (applyWrites db (ws.take 1)).coupons = db.coupons ∧
      (applyWrites db (ws.take 1)).bookings = db.bookings.map (fun b =>
        if b.id == bid then
          { b with coupon_code := some coupon.code,
                   coupon_discount :=
                     some (computeDiscount coupon booking.total_amount),
                   total_amount :=
                     booking.total_amount -
                       computeDiscount coupon booking.total_amount,
                   deposit_amount :=
                     (booking.total_amount -
                       computeDiscount coupon booking.total_amount) *
                       (booking.deposit_amount / booking.total_amount) }
        else b) ∧
      (applyWrites db ws).bookings = (applyWrites db (ws.take 1)).bookings ∧
      (applyWrites db ws).coupons = db.coupons.map (fun c =>
        if c.id == coupon.id then { c with used_count := c.used_count + 1 }
        else c) := by
  obtain ⟨bid, coupon, booking, hbid, hc, hb, _, _, _, hws⟩ := applyCoupon_ok h
  subst hws
  exact ⟨bid, coupon, booking, hbid, hc, hb, rfl, rfl, rfl, rfl, rfl⟩

/-- C3 witness: on the fixture store, after only the first of the two writes
the coupons table is untouched. -/
theorem apply_coupon_two_writes_witness :
    (applyWrites exDb ([DbWrite.updateBooking 1 "SAVE" 10 90 (45/2),
        DbWrite.incrementCouponUsed 1].take 1)).coupons = exDb.coupons := by
  have happly : applyCoupon 0 "SAVE" (some 1) exDb =
      (.ok 10 90 (45/2), [DbWrite.updateBooking 1 "SAVE" 10 90 (45/2),
       DbWrite.incrementCouponUsed 1]) := by
    have h1 : findValidCoupon 0 "SAVE" exDb = some couponSave := rfl
    have h2 : findBooking 1 exDb = some bookingA := rfl
    simp only [applyCoupon, h1, h2, computeDiscount, couponSave, bookingA]
    norm_num [toFixed2, min_def, show ¬("SAVE" = "") from by decide,
      show ¬("fixed" = "percent") from by decide]
  obtain ⟨bid, coupon, booking, hbid, hc, hb, hws, hcoup1, _⟩ :=
    apply_coupon_two_writes 0 "SAVE" (some 1) exDb 10 90 (45/2)
      [DbWrite.updateBooking 1 "SAVE" 10 90 (45/2),
       DbWrite.incrementCouponUsed 1] happly
  exact hcoup1

/-! ## Claim C9 -/

/-- C9 (amended): applying a coupon preserves the booking's deposit-to-total
fraction provided the updated total (total minus discount) is nonzero; with
a full discount the updated total and deposit are both 0 and the quotient
degenerates (NaN in JS), see the counterexample. -/
theorem apply_preserves_deposit_fraction (now : ℚ) (code : String)
    (bookingId : Option Nat) (db : Db) (d t dep : ℚ) (ws : List DbWrite)
    (bid : Nat) (cc : String) (disc nt nd : ℚ) (booking : Booking)
    (h : applyCoupon now code bookingId db = (.ok d t dep, ws))
    (hw : DbWrite.updateBooking bid cc disc nt nd ∈ ws)
    (hb : findBooking bid db = some booking)
    (_htot : booking.total_amount ≠ 0) (hnt : nt ≠ 0) :
    nd / nt = booking.deposit_amount / booking.total_amount := by
  obtain ⟨bid2, coupon, booking2, hbid2, hc2, hb2, _, _, _, hws⟩ :=
    applyCoupon_ok h
  subst hws
  simp only [List.mem_cons, List.mem_singleton] at hw
  rcases hw with hw | hw | hw
  · obtain ⟨h1, _, _, h4, h5⟩ := DbWrite.updateBooking.injEq .. |>.mp hw.symm
    subst h1
    rw [hb] at hb2
    cases hb2
    rw [← h5, ← h4]
    rw [← h4] at hnt
    exact mul_div_cancel_left₀ _ hnt
  · exact absurd hw (by simp)
  · exact absurd hw (by simp)

/-- C9 (counterexample to the claim as stated): a full fixed discount of 100
on the fixture booking (total 100, deposit 25) succeeds, writes updated
total 0 and deposit 0, and the updated quotient 0/0 (NaN in JS, 0 in ℚ) is
not the original fraction 25/100. -/
theorem apply_preserves_deposit_fraction_counterexample :
    applyCoupon 0 "FULL" (some 1) exDb =
      (.ok 100 0 0, [DbWrite.updateBooking 1 "FULL" 100 0 0,
                     DbWrite.incrementCouponUsed 2]) ∧
    (findBooking 1 exDb).map Booking.total_amount = some 100 ∧
    (findBooking 1 exDb).map Booking.deposit_amount = some 25 ∧
    ¬ ((0:ℚ) / 0 = 25 / 100) := by
  refine ⟨?_, rfl, rfl, by norm_num⟩
  have h1 : findValidCoupon 0 "FULL" exDb = some couponFull := rfl
  have h2 : findBooking 1 exDb = some bookingA := rfl
  simp only [applyCoupon, h1, h2, computeDiscount, couponFull, bookingA]
  norm_num [toFixed2, min_def, show ¬("FULL" = "") from by decide,
    show ¬("fixed" = "percent") from by decide]

/-- C9 witness: the partial discount of 10 on the fixture booking preserves
the deposit fraction: (45/2)/90 = 25/100. -/
theorem apply_preserves_deposit_fraction_witness :
    (45/2 : ℚ) / 90 = bookingA.deposit_amount / bookingA.total_amount := by
  refine apply_preserves_deposit_fraction 0 "SAVE" (some 1) exDb 10 90 (45/2)
    [DbWrite.updateBooking 1 "SAVE" 10 90 (45/2),
     DbWrite.incrementCouponUsed 1] 1 "SAVE" 10 90 (45/2) bookingA ?_
    (by simp) rfl (by norm_num [bookingA]) (by norm_num)
  have h1 : findValidCoupon 0 "SAVE" exDb = some couponSave := rfl
  have h2 : findBooking 1 exDb = some bookingA := rfl
  simp only [applyCoupon, h1, h2, computeDiscount, couponSave, bookingA]
  norm_num [toFixed2, min_def, show ¬("SAVE" = "") from by decide,
    show ¬("fixed" = "percent") from by decide]

/-! ## Claim C6 -/

/-- The SQL WHERE clause of validate/apply in propositional form. -/
theorem couponMatches_iff (now : ℚ) (u : String) (c : Coupon) :
    couponMatches now u c = true ↔
      (c.code = u ∧ c.is_active = true ∧
        (c.expires_at = none ∨ ∃ e, c.expires_at = some e ∧ now < e) ∧
        (c.max_uses = none ∨ ∃ m, c.max_uses = some m ∧ c.used_count < m)) := by
  unfold couponMatches
  cases hce : c.expires_at <;> cases hcm : c.max_uses <;>
    simp [hce, hcm, Bool.and_eq_true, beq_iff_eq, and_assoc]

/-- The validate/apply coupon SELECT returns nothing exactly when no row
passes the WHERE clause. -/
theorem findValidCoupon_eq_none_iff (now : ℚ) (code : String) (db : Db) :
    findValidCoupon now code db = none ↔
      ∀ c ∈ db.coupons, couponMatches now (jsToUpper code) c = false := by
  unfold findValidCoupon
  rw [List.head?_eq_none_iff, List.filter_eq_nil_iff]
  simp [Bool.not_eq_true]

/-- C6: with a code supplied, validate returns 404 exactly when no coupon
row matches the uppercased code while active, unexpired (or no expiry), and
under its usage cap (or uncapped); in particular an expired code yields
404 (see the witness). -/
theorem validate_notFound_iff (now : ℚ) (code : String) (subtotal : ℚ)
    (db : Db) (h : code ≠ "") :
    validateCoupon now code subtotal db = .notFound ↔
      ∀ c ∈ db.coupons, ¬(c.code = jsToUpper code ∧ c.is_active = true ∧
        (c.expires_at = none ∨ ∃ e, c.expires_at = some e ∧ now < e) ∧
        (c.max_uses = none ∨ ∃ m, c.max_uses = some m ∧ c.used_count < m)) := by
  have hbranch : validateCoupon now code subtotal db = .notFound ↔
      findValidCoupon now code db = none := by
    unfold validateCoupon
    rw [if_neg (by simpa using h)]
    cases hf : findValidCoupon now code db <;> simp
  rw [hbranch, findValidCoupon_eq_none_iff]
  refine forall₂_congr (fun c hc => ?_)
  rw [← couponMatches_iff now (jsToUpper code) c]
  constructor
  · intro hfalse htrue
    rw [hfalse] at htrue
    exact Bool.false_ne_true htrue
  · intro hne
    exact Bool.eq_false_iff.mpr hne

/-- C6 witness: at time 20, validating the code of the coupon that expired
at time 10 (submitted in lower case) returns 404. -/
theorem validate_notFound_iff_witness :
    validateCoupon 20 "exp" 50 dbExpired = .notFound := by
  refine (validate_notFound_iff 20 "exp" 50 dbExpired (by decide)).mpr ?_
  intro c hc
  simp only [dbExpired, List.mem_singleton] at hc
  subst hc
  rw [show jsToUpper "exp" = "EXP" from rfl]
  simp only [couponExpired, not_and]
  intro _ _ hexp
  rcases hexp with hnone | ⟨e, he, hlt⟩
  · exact absurd hnone (by simp)
  · rw [Option.some.injEq] at he
    rw [← he] at hlt
    norm_num at hlt

/-! ## Claim C7 -/

/-- C7: percent coupons with an out-of-bounds discount value are rejected
with 400 and nothing is inserted; consequently the invariant that every
stored percent coupon has a discount value in [0, 100] is preserved by the
create handler. -/
theorem create_coupon_percent_bounds (code dtype : String) (v : ℚ)
    (maxUses : Option Nat) (expiresAt : Option ℚ) (newId : Nat) (db : Db) :
    (dtype = "percent" → (v < 0 ∨ 100 < v) →
      ∃ msg, createCoupon code dtype v maxUses expiresAt newId db =
        (.badRequest msg, db)) ∧
    (∀ resp db2,
      createCoupon code dtype v maxUses expiresAt newId db = (resp, db2) →
      (∀ c ∈ db.coupons, c.discount_type = "percent" →
        0 ≤ c.discount_value ∧ c.discount_value ≤ 100) →
      ∀ c ∈ db2.coupons, c.discount_type = "percent" →
        0 ≤ c.discount_value ∧ c.discount_value ≤ 100) := by
  constructor
  · intro hd hv
    subst hd
    unfold createCoupon
    split
    · exact ⟨_, rfl⟩
    · rw [if_neg (by simp), if_pos]
      · exact ⟨_, rfl⟩
      · rcases hv with hv | hv <;> simp [hv]
  · intro resp db2 hcreate hinv
    unfold createCoupon at hcreate
    split at hcreate
    · cases hcreate; exact hinv
    · split at hcreate
      · cases hcreate; exact hinv
      · split at hcreate
        · cases hcreate; exact hinv
        · split at hcreate
          · cases hcreate; exact hinv
          · rename_i h1 h2 h3 h4
            cases hcreate
            intro c hc hcp
            rw [List.mem_append, List.mem_singleton] at hc
            rcases hc with hc | hc
            · exact hinv c hc hcp
            · subst hc
              simp only [Bool.and_eq_true, beq_iff_eq, Bool.or_eq_true,
                decide_eq_true_eq, not_and, not_or, not_lt] at h3
              exact h3 hcp

/-- C7 witness: a percent coupon of -5 is rejected leaving the store
unchanged, and creating a percent coupon of 20 preserves the bounds
invariant on the fixture store (whose coupons are all fixed). -/
theorem create_coupon_percent_bounds_witness :
    (∃ msg, createCoupon "NEG" "percent" (-5) none none 9 exDb =
      (.badRequest msg, exDb)) ∧
    (∀ c ∈ ((createCoupon "OKP" "percent" 20 none none 9 exDb).2).coupons,
      c.discount_type = "percent" →
        0 ≤ c.discount_value ∧ c.discount_value ≤ 100) := by
  constructor
  · exact (create_coupon_percent_bounds "NEG" "percent" (-5) none none 9
      exDb).1 rfl (Or.inl (by norm_num))
  · refine (create_coupon_percent_bounds "OKP" "percent" 20 none none 9
      exDb).2 (createCoupon "OKP" "percent" 20 none none 9 exDb).1
      (createCoupon "OKP" "percent" 20 none none 9 exDb).2 rfl ?_
    intro c hc hcp
    simp only [exDb, List.mem_cons, List.not_mem_nil, or_false] at hc
    rcases hc with hc | hc <;> subst hc <;>
      exact absurd hcp (by simp [couponSave, couponFull])

/-! ## Claim C10 -/

/-- Uppercasing yields the empty string only for the empty string. -/
theorem jsToUpper_eq_empty (s : String) : jsToUpper s = "" ↔ s = "" := by
  constructor
  · intro hh
    cases s with
    | mk data =>
      have hdata : data.map Char.toUpper = [] := congrArg String.data hh
      have hd : data = [] := List.map_eq_nil_iff.mp hdata
      rw [hd]
  · intro hh
    subst hh
    rfl

/-- C10: coupon handling is case-insensitive by normalization — two
submitted codes with the same uppercasing validate and apply identically,
and creation stores the uppercased code. -/
theorem coupon_code_case_insensitive (c1 c2 : String)
    (h : jsToUpper c1 = jsToUpper c2) (now subtotal : ℚ)
    (bookingId : Option Nat) (db : Db) (dtype : String) (v : ℚ)
    (mu : Option Nat) (ea : Option ℚ) (nid : Nat) :
    validateCoupon now c1 subtotal db = validateCoupon now c2 subtotal db ∧
    applyCoupon now c1 bookingId db = applyCoupon now c2 bookingId db ∧
    (∀ row db2, createCoupon c1 dtype v mu ea nid db = (.created row, db2) →
      row.code = jsToUpper c1) := by
  have he : c1 = "" ↔ c2 = "" := by
    rw [← jsToUpper_eq_empty c1, ← jsToUpper_eq_empty c2, h]
  have heb : (c1 == "") = (c2 == "") := by
    by_cases h1 : c1 = ""
    · simp [h1, he.mp h1]
    · have h2 : ¬ c2 = "" := fun hc2 => h1 (he.mpr hc2)
      simp [h1, h2]
  refine ⟨?_, ?_, ?_⟩
  · simp only [validateCoupon, findValidCoupon, heb, h]
  · simp only [applyCoupon, findValidCoupon, heb, h]
  · intro row db2 hcr
    unfold createCoupon at hcr
    split at hcr
    · cases hcr
    · split at hcr
      · cases hcr
      · split at hcr
        · cases hcr
        · split at hcr
          · cases hcr
          · cases hcr
            rfl

/-- C10 witness: "save" and "SaVe" validate and apply identically on the
fixture store, and creating "save" stores "SAVE". -/
theorem coupon_code_case_insensitive_witness :
    validateCoupon 0 "save" 50 exDb = validateCoupon 0 "SaVe" 50 exDb ∧
    applyCoupon 0 "save" (some 1) exDb = applyCoupon 0 "SaVe" (some 1) exDb ∧
    (∀ row db2,
      createCoupon "save" "fixed" 7 none none 9 exDb = (.created row, db2) →
        row.code = jsToUpper "save") := by
  have hmain := coupon_code_case_insensitive "save" "SaVe" rfl 0 50 (some 1)
    exDb "fixed" 7 none none 9
  exact ⟨hmain.1, hmain.2.1, hmain.2.2⟩

/-! ## Claim C8 -/

/-- C8: both booking status updaters reject a status outside the whitelist
{pending, confirmed, in_progress, completed, cancelled} with 400, leaving
the store untouched: PATCH /:id/status checks before its UPDATE, and
PUT /:id checks while collecting fields, before its UPDATE. -/
theorem booking_status_whitelist (id : Nat) (s : String) (r : PutBookingReq)
    (db : Db) (h : s ∉ validStatuses) :
    updateBookingStatus id s db = (.badRequest "Invalid status", db) ∧
    (r.status = some s →
      putBooking id r db = (.badRequest "Invalid status", db)) := by
  have hc : validStatuses.contains s = false := by simpa using h
  constructor
  · unfold updateBookingStatus
    simp [hc, h]
  · intro hs
    unfold putBooking
    rw [hs]
    simp [hc, h]

/-- C8 witness: status "bogus" is rejected by both handlers on the fixture
store, which stays unchanged. -/
theorem booking_status_whitelist_witness :
    updateBookingStatus 1 "bogus" exDb =
      (.badRequest "Invalid status", exDb) ∧
    putBooking 1 putReqBogus exDb = (.badRequest "Invalid status", exDb) := by
  have hmain := booking_status_whitelist 1 "bogus" putReqBogus exDb (by decide)
  exact ⟨hmain.1, hmain.2 rfl⟩

/-! ## Claim C2 -/

/-- Each hex digit below 16 is in the hex alphabet. -/
theorem hexDigit_isHex {n : Nat} (h : n < 16) :
    isHexChar (hexDigit n) = true := by
  interval_cases n <;> decide

/-- The hex string of a byte list has two characters per byte. -/
theorem bytesToHex_length (bytes : List Nat) :
    (bytesToHex bytes).length = 2 * bytes.length := by
  show (bytesToHex bytes).data.length = 2 * bytes.length
  unfold bytesToHex
  induction bytes with
  | nil => rfl
  | cons b bs ih =>
    simp only [List.foldr_cons, List.length_cons] at *
    simp only [ih]
    ring

/-- Every character of the hex string is a hex digit. -/
theorem bytesToHex_chars (bytes : List Nat) :
    ∀ c ∈ (bytesToHex bytes).data, isHexChar c = true := by
  unfold bytesToHex
  induction bytes with
  | nil => intro c hc; exact absurd hc (by simp)
  | cons b bs ih =>
    intro c hc
    simp only [List.foldr_cons, List.mem_cons] at hc
    rcases hc with hc | hc | hc
    · exact hc ▸ hexDigit_isHex (Nat.mod_lt _ (by norm_num))
    · exact hc ▸ hexDigit_isHex (Nat.mod_lt _ (by norm_num))
    · exact ih c hc

/-- C2: every successful booking creation stores `total_amount` equal to the
looked-up base price (service row by vehicle column, or package
`base_price` times the vehicle multiplier with the falsy default 1.0) plus
the sum of the active supplied add-ons; `deposit_amount` equal to
`total_amount` times the deposit percentage (settings row, else the
environment value, else 0.25); and a payment token that is the hex encoding
of the six fresh random bytes: 12 lowercase hex characters. -/
theorem create_booking_pricing (req : BookingReq) (db : Db)
    (env : Option ℚ) (bytes : List Nat) (newId : Nat) (bk : Booking)
    (db2 : Db)
    (h : createBooking req db env bytes newId = .ok (bk, db2))
    (hlen : bytes.length = 6) :
    bk.deposit_amount = bk.total_amount * depositPct db env ∧
    bk.payment_token = some (generatePaymentToken bytes) ∧
    (generatePaymentToken bytes).length = 12 ∧
    (∀ c ∈ (generatePaymentToken bytes).data, isHexChar c = true) ∧
    (∀ sid svc, truthyId req.serviceId = some sid →
      db.services.find? (fun sv => sv.id == sid) = some svc →
      bk.total_amount = servicePrice svc req.vehicleType +
        addonTotal req.addonIds req.vehicleType db) ∧
    (∀ pid pkg, truthyId req.serviceId = none →
      truthyId req.packageId = some pid →
      db.packages.find? (fun p => p.id == pid) = some pkg →
      bk.total_amount = pkg.base_price * packageMultiplier pkg req.vehicleType +
        addonTotal req.addonIds req.vehicleType db) ∧
    bk.status = "pending" ∧
    db2.bookings = db.bookings ++ [bk] := by
  have hlen12 : (generatePaymentToken bytes).length = 12 := by
    rw [generatePaymentToken, bytesToHex_length, hlen]
  unfold createBooking at h
  cases hbase : basePriceLookup req db with
  | error e => rw [hbase] at h; cases h
  | ok base =>
    rw [hbase] at h
    simp only [Except.ok.injEq, Prod.mk.injEq] at h
    obtain ⟨hbk, hdb2⟩ := h
    subst hbk
    subst hdb2
    refine ⟨rfl, rfl, hlen12, bytesToHex_chars bytes, ?_, ?_, rfl, rfl⟩
    · intro sid svc hsid hfind
      unfold basePriceLookup at hbase
      simp only [hsid, hfind, Except.ok.injEq] at hbase
      rw [← hbase]
    · intro pid pkg hsid hpid hfind
      unfold basePriceLookup at hbase
      simp only [hsid, hpid, hfind, Except.ok.injEq] at hbase
      rw [← hbase]

/-- C2 witness: creating the SUV booking on the fixture store yields total
135, deposit 135 * 3/10, and the 12-character hex token of the bytes. -/
theorem create_booking_pricing_witness :
    createBooking reqSuv dbBookings none [0, 255, 16, 1, 171, 205] 9 =
      .ok (bkSuv, { dbBookings with bookings := [bkSuv] }) ∧
    bkSuv.deposit_amount = bkSuv.total_amount * depositPct dbBookings none ∧
    bkSuv.payment_token =
      some (generatePaymentToken [0, 255, 16, 1, 171, 205]) ∧
    (generatePaymentToken [0, 255, 16, 1, 171, 205]).length = 12 ∧
    bkSuv.total_amount = servicePrice serviceBasic "SUV" +
      addonTotal (some [1]) "SUV" dbBookings := by
  have haddon : addonTotal (some [1]) "SUV" dbBookings = 25 := by
    norm_num [addonTotal, dbBookings, addonWax, addonPrice, List.filter,
      show jsToLower "SUV" = "suv" from rfl,
      show ¬("suv" = "commercial") from by decide,
      show ¬("suv" = "sedan") from by decide]
  have hcreate : createBooking reqSuv dbBookings none
      [0, 255, 16, 1, 171, 205] 9 =
      .ok (bkSuv, { dbBookings with bookings := [bkSuv] }) := by
    unfold createBooking
    rw [show basePriceLookup reqSuv dbBookings = .ok 110 from rfl]
    rw [show (reqSuv.addonIds) = some [1] from rfl,
      show reqSuv.vehicleType = "SUV" from rfl, haddon,
      show depositPct dbBookings none = 3/10 from rfl]
    norm_num [bkSuv, dbBookings, reqSuv, truthyId,
      show generatePaymentToken [0, 255, 16, 1, 171, 205] = "00ff1001abcd"
        from rfl]
  have hmain := create_booking_pricing reqSuv dbBookings none
    [0, 255, 16, 1, 171, 205] 9 bkSuv
    { dbBookings with bookings := [bkSuv] } hcreate rfl
  refine ⟨hcreate, hmain.1, hmain.2.1, hmain.2.2.1, ?_⟩
  have h5 := hmain.2.2.2.2.1 1 serviceBasic rfl rfl
  rw [show reqSuv.vehicleType = "SUV" from rfl,
    show reqSuv.addonIds = some [1] from rfl] at h5
  exact h5

/-! ## Claim C5 -/

/-- The head of a list, when present, is a member. -/
theorem mem_of_head?_eq_some {α : Type} {l : List α} {a : α}
    (h : l.head? = some a) : a ∈ l := by
  cases l with
  | nil => cases h
  | cons x xs =>
    cases h
    exact List.mem_cons_self ..

/-- The refresh WHERE/JOIN condition in propositional form. -/
theorem refreshRowMatches_iff (H : String → String) (token : String)
    (now : ℚ) (db : Db) (r : RefreshTokenRow) :
    refreshRowMatches H token now db r = true ↔
      (r.token_hash = H token ∧ r.is_revoked = false ∧
        now < r.expires_at ∧
        ∃ u ∈ db.admin_users, u.id = r.user_id ∧ u.is_active = true) := by
  unfold refreshRowMatches
  simp [Bool.and_eq_true, beq_iff_eq, List.any_eq_true, and_assoc]

/-- C5: login stores only the hash of the refresh token (the inserted row
carries `H token`, never the raw token); with a token presented (nonempty —
a missing or falsy empty token is a 400 short-circuit before the query),
refresh succeeds exactly when a stored row hashes to the presented token
while unrevoked, unexpired, and joined to an active admin user, and returns
401 otherwise; and refreshing with a token after logging it out always
returns 401. -/
theorem refresh_token_lifecycle (H : String → String) (token : String)
    (userId : Nat) (rememberMe : Bool) (nowMs now : ℚ) (ua : String)
    (db : Db) (htok : token ≠ "") :
    (loginStoreRefreshToken H userId token rememberMe nowMs ua db).1.token_hash
        = H token ∧
    (loginStoreRefreshToken H userId token rememberMe nowMs ua
        db).2.refresh_tokens
        = db.refresh_tokens ++
          [(loginStoreRefreshToken H userId token rememberMe nowMs ua db).1] ∧
    ((∃ uid, refreshHandler H (some token) now db = .ok uid) ↔
      ∃ r ∈ db.refresh_tokens, r.token_hash = H token ∧
        r.is_revoked = false ∧ now < r.expires_at ∧
        ∃ u ∈ db.admin_users, u.id = r.user_id ∧ u.is_active = true) ∧
    ((¬ ∃ r ∈ db.refresh_tokens, r.token_hash = H token ∧
        r.is_revoked = false ∧ now < r.expires_at ∧
        ∃ u ∈ db.admin_users, u.id = r.user_id ∧ u.is_active = true) →
      refreshHandler H (some token) now db = .unauthorized) ∧
    refreshHandler H (some token) now
      (logoutHandler H (some token) db) = .unauthorized := by
  have hbeq : (token == "") = false := by simpa using htok
  refine ⟨rfl, rfl, ?_, ?_, ?_⟩
  · constructor
    · rintro ⟨uid, huid⟩
      unfold refreshHandler at huid
      dsimp only at huid
      simp only [hbeq, Bool.false_eq_true, if_false] at huid
      cases hf : (db.refresh_tokens.filter
          (refreshRowMatches H token now db)).head? with
      | none => rw [hf] at huid; cases huid
      | some row =>
        have hmem : row ∈ db.refresh_tokens.filter
            (refreshRowMatches H token now db) := mem_of_head?_eq_some hf
        rw [List.mem_filter] at hmem
        exact ⟨row, hmem.1, (refreshRowMatches_iff H token now db row).mp
          hmem.2⟩
    · rintro ⟨r, hr, hprop⟩
      cases hf : (db.refresh_tokens.filter
          (refreshRowMatches H token now db)).head? with
      | none =>
        exfalso
        rw [List.head?_eq_none_iff, List.filter_eq_nil_iff] at hf
        exact hf r hr ((refreshRowMatches_iff H token now db r).mpr hprop ▸
          (by simp))
      | some row =>
        refine ⟨row.user_id, ?_⟩
        unfold refreshHandler
        dsimp only
        simp only [hbeq, Bool.false_eq_true, if_false]
        rw [hf]
  · intro hnone
    cases hf : (db.refresh_tokens.filter
        (refreshRowMatches H token now db)).head? with
    | none =>
      unfold refreshHandler
      dsimp only
      simp only [hbeq, Bool.false_eq_true, if_false]
      rw [hf]
    | some row =>
      exfalso
      have hmem : row ∈ db.refresh_tokens.filter
          (refreshRowMatches H token now db) := mem_of_head?_eq_some hf
      rw [List.mem_filter] at hmem
      exact hnone ⟨row, hmem.1, (refreshRowMatches_iff H token now db
        row).mp hmem.2⟩
  · have hnil : (logoutHandler H (some token) db).refresh_tokens.filter
        (refreshRowMatches H token now (logoutHandler H (some token) db))
        = [] := by
      rw [List.filter_eq_nil_iff]
      intro r2 hr2
      unfold logoutHandler at hr2
      dsimp only at hr2
      simp only [hbeq, Bool.false_eq_true, if_false] at hr2
      simp only [List.mem_map] at hr2
      obtain ⟨r, _, hfr⟩ := hr2
      by_cases hh : r.token_hash = H token
      · rw [← hfr]
        simp [refreshRowMatches, hh]
      · rw [← hfr]
        simp [refreshRowMatches, hh]
    unfold refreshHandler
    dsimp only
    simp only [hbeq, Bool.false_eq_true, if_false]
    rw [hnil]
    rfl

/-- C5 witness: at time 50 refreshing with the stored token succeeds, and
after logging the token out the same refresh returns 401. -/
theorem refresh_token_lifecycle_witness :
    (∃ uid, refreshHandler hashW (some "tok") 50 dbAuth = .ok uid) ∧
    refreshHandler hashW (some "tok") 50
      (logoutHandler hashW (some "tok") dbAuth) = .unauthorized := by
  refine ⟨(refresh_token_lifecycle hashW "tok" 7 false 0 50 "ua"
      dbAuth (by decide)).2.2.1.mpr ?_,
    (refresh_token_lifecycle hashW "tok" 7 false 0 50 "ua" dbAuth
      (by decide)).2.2.2.2⟩
  refine ⟨rowAuth, by simp [dbAuth], rfl, rfl, ?_, userAuth,
    by simp [dbAuth], rfl, rfl⟩
  show (50:ℚ) < rowAuth.expires_at
  norm_num [rowAuth]

/-! ## Claim C4 -/

/-- C4: the reviews endpoint is a time-bucketed cache-or-fetch with stale
fallback.  (a) A fresh cache row is returned as-is with `cached = true` and
the upstream API is not called.  (b) On a miss the API is fetched and, on
success, the transformed payload is upserted with `cached_at = now` and
returned with `cached = false`.  (c) If the fetch throws after a miss, the
stale row for the place (when one exists) is returned marked `stale = true`.
(d) With no cache row at all, a throwing fetch yields 500.  (e,f) The same
stale-or-500 fallback applies when the fresh-path cache query itself throws,
in which case the API is never reached. -/
theorem google_reviews_cache_or_fetch (cacheHours now : ℚ) (placeId : String)
    (fetchOutcome : Except Unit GData) (rows : List CacheRow) :
    (∀ row, findFreshCache cacheHours now placeId rows = some row →
      googleReviewsHandler true cacheHours now placeId true fetchOutcome rows
        = (.ok { overall_rating := row.overall_rating,
                 total_reviews := row.total_reviews,
                 business_name := row.reviews_data.business_name,
                 reviews := row.reviews_data.reviews,
                 cached := true, cached_at := row.cached_at } false,
           rows, false)) ∧
    (∀ g, findFreshCache cacheHours now placeId rows = none →
      fetchOutcome = .ok g →
      googleReviewsHandler true cacheHours now placeId true fetchOutcome rows
        = (.ok { overall_rating := (transformReviews g).overall_rating,
                 total_reviews := (transformReviews g).total_reviews,
                 business_name := (transformReviews g).business_name,
                 reviews := (transformReviews g).reviews,
                 cached := false, cached_at := now } false,
           upsertCache { place_id := placeId,
                         overall_rating := (transformReviews g).overall_rating,
                         total_reviews := (transformReviews g).total_reviews,
                         reviews_data := transformReviews g,
                         cached_at := now } rows, true)) ∧
    (∀ row, findFreshCache cacheHours now placeId rows = none →
      fetchOutcome = .error () →
      findAnyCache placeId rows = some row →
      googleReviewsHandler true cacheHours now placeId true fetchOutcome rows
        = (.ok { overall_rating := row.overall_rating,
                 total_reviews := row.total_reviews,
                 business_name := row.reviews_data.business_name,
                 reviews := row.reviews_data.reviews,
                 cached := true, cached_at := row.cached_at } true,
           rows, true)) ∧
    (findFreshCache cacheHours now placeId rows = none →
      fetchOutcome = .error () →
      findAnyCache placeId rows = none →
      googleReviewsHandler true cacheHours now placeId true fetchOutcome rows
        = (.serverError, rows, true)) ∧
    (∀ row, findAnyCache placeId rows = some row →
      googleReviewsHandler true cacheHours now placeId false fetchOutcome
        rows
        = (.ok { overall_rating := row.overall_rating,
                 total_reviews := row.total_reviews,
                 business_name := row.reviews_data.business_name,
                 reviews := row.reviews_data.reviews,
                 cached := true, cached_at := row.cached_at } true,
           rows, false)) ∧
    (findAnyCache placeId rows = none →
      googleReviewsHandler true cacheHours now placeId false fetchOutcome
        rows = (.serverError, rows, false)) := by
  refine ⟨?_, ?_, ?_, ?_, ?_, ?_⟩
  · intro row hfresh
    simp [googleReviewsHandler, getCachedOrFetch, hfresh]
  · intro g hfresh hfetch
    simp [googleReviewsHandler, getCachedOrFetch, hfresh, hfetch]
  · intro row hfresh hfetch hany
    simp [googleReviewsHandler, getCachedOrFetch, hfresh, hfetch, hany]
  · intro hfresh hfetch hany
    simp [googleReviewsHandler, getCachedOrFetch, hfresh, hfetch, hany]
  · intro row hany
    simp [googleReviewsHandler, getCachedOrFetch, hany]
  · intro hany
    simp [googleReviewsHandler, getCachedOrFetch, hany]

/-- C4 witness: with a 24-hour window, at time 100 the row cached at 90 is
fresh and returned without an upstream call even though the fetch would
throw; at time 200 it is stale, the failing fetch is attempted, and the
row comes back marked stale; with an empty cache the same failure is a
500. -/
theorem google_reviews_cache_or_fetch_witness :
    googleReviewsHandler true 24 100 "p" true (.error ()) [rowCacheW]
      = (.ok { overall_rating := rowCacheW.overall_rating,
               total_reviews := rowCacheW.total_reviews,
               business_name := rowCacheW.reviews_data.business_name,
               reviews := rowCacheW.reviews_data.reviews,
               cached := true, cached_at := rowCacheW.cached_at } false,
         [rowCacheW], false) ∧
    googleReviewsHandler true 24 200 "p" true (.error ()) [rowCacheW]
      = (.ok { overall_rating := rowCacheW.overall_rating,
               total_reviews := rowCacheW.total_reviews,
               business_name := rowCacheW.reviews_data.business_name,
               reviews := rowCacheW.reviews_data.reviews,
               cached := true, cached_at := rowCacheW.cached_at } true,
         [rowCacheW], true) ∧
    googleReviewsHandler true 24 200 "p" true (.error ()) []
      = (.serverError, [], true) := by
  have hfresh100 : findFreshCache 24 100 "p" [rowCacheW] = some rowCacheW := by
    unfold findFreshCache
    rw [List.filter, show (rowCacheW.place_id == "p" &&
      decide ((100:ℚ) - 24 < rowCacheW.cached_at)) = true by
        norm_num [rowCacheW]]
    rfl
  have hfresh200 : findFreshCache 24 200 "p" [rowCacheW] = none := by
    unfold findFreshCache
    rw [List.filter, show (rowCacheW.place_id == "p" &&
      decide ((200:ℚ) - 24 < rowCacheW.cached_at)) = false by
        norm_num [rowCacheW]]
    rfl
  refine ⟨(google_reviews_cache_or_fetch 24 100 "p" (.error ())
      [rowCacheW]).1 rowCacheW hfresh100,
    (google_reviews_cache_or_fetch 24 200 "p" (.error ())
      [rowCacheW]).2.2.1 rowCacheW hfresh200 rfl rfl,
    (google_reviews_cache_or_fetch 24 200 "p" (.error ()) []).2.2.2.1 rfl
      rfl rfl⟩

end ShowersAutoDetail
